import Mathlib

/-!
Shallow embedding of `src/main.py`, the MLB FastMCP server: a stateless
protocol adapter exposing ~46 MCP tools, each of which validates a small
pydantic parameter object, builds one outbound HTTP GET request against a
fixed base URL, and either returns the parsed JSON body (2xx) or raises on a
non-success status.

The embedding models, from the source:
  * the query-value language (`QVal`) and outbound `Request` records;
  * pydantic `model_dump(exclude_none=..., exclude=...)` as per-schema dump
    functions in field-declaration order, with `Option` fields dropped when
    `none` and excluded fields removed;
  * Python `dict` key assignment (`query_params["k"] = v`) as `setKey`;
  * Python string formatting in f-string paths (`str(None) = "None"`,
    truthiness of `Optional[bool]`, `str.upper()`);
  * httpx `raise_for_status` (error on any status outside 2xx) followed by
    `res.json()`;
  * the pydantic validation step run by the framework before a handler is
    invoked: required fields must be present, optional fields take their
    declared defaults (`validate` over the per-tool `schemaOf` tables).
-/

namespace MLBMCP

/-- A value appearing in an outbound query mapping: the Python values the
handlers put into `query_params` are ints, strings and booleans. -/
inductive QVal where
  | int (n : Int)
  | str (s : String)
  | bool (b : Bool)
deriving DecidableEq, Repr

/-- An outbound query mapping, in insertion order (Python dicts keep it). -/
abbrev Query := List (String × QVal)

/-- HTTP method of an outbound request; the source only ever issues GETs. -/
inductive Method where
  | GET
deriving DecidableEq, Repr

/-- One outbound HTTP request as the handlers build it: full URL (the source
interpolates `MLB_BASE` into an f-string), query mapping, headers, and the
request body (always absent for `http_client.get`). -/
structure Request where
  method : Method
  url : String
  query : Query
  headers : List (String × String)
  body : Option String
deriving DecidableEq, Repr

/-- `MLB_BASE` of main.py line 18. -/
def MLB_BASE : String := "https://statsapi.mlb.com/api/v1"

/-- `HEADERS` of main.py lines 19-22. -/
def HEADERS : List (String × String) :=
  [("Accept", "application/json"), ("Content-Type", "application/json")]

/-- `model_dump` of one `Optional[int]` field: omitted from the dump when
`None` (`exclude_none=True`), else one entry. -/
def optInt (k : String) (v : Option Int) : Query :=
  match v with
  | none => []
  | some n => [(k, .int n)]

/-- `model_dump` of one `Optional[str]` field under `exclude_none=True`. -/
def optStr (k : String) (v : Option String) : Query :=
  match v with
  | none => []
  | some s => [(k, .str s)]

/-- `model_dump` of one `Optional[bool]` field under `exclude_none=True`. -/
def optBool (k : String) (v : Option Bool) : Query :=
  match v with
  | none => []
  | some b => [(k, .bool b)]

/-- Python dict assignment `q[k] = v`: replaces the value at an existing key
in place, otherwise appends the key at the end. -/
def setKey (q : Query) (k : String) (v : QVal) : Query :=
  if q.any (fun e => e.1 == k) then
    q.map (fun e => if e.1 == k then (k, v) else e)
  else
    q ++ [(k, v)]

/-- Python `str.upper()` (the positions compared are ASCII): uppercase every
character of the string. -/
def pyUpper (s : String) : String := ⟨s.data.map Char.toUpper⟩

/-- Python `f"{v}"` on an `Optional[int]`: `str(None)` is the literal string
`"None"`, `str(n)` the decimal rendering. -/
def pyStrOptInt (v : Option Int) : String :=
  match v with
  | none => "None"
  | some n => toString n

/-- Python truthiness of an `Optional[bool]`: `None` and `False` are falsy. -/
def pyTruthy (v : Option Bool) : Bool :=
  match v with
  | none => false
  | some b => b

/-! ## Tool input schemas (main.py lines 32-301)

Each pydantic `BaseModel` becomes a structure; `Optional[T] = Field(d, ...)`
becomes an `Option`-typed field whose default is `d` (so a non-`None` default
such as `False` or `1` is `some _`, taken when the caller omits the field). -/

structure TeamsForYearInput where
  year : Int
deriving DecidableEq, Repr

structure TeamRosterInput where
  team_id : String
  year : Int
deriving DecidableEq, Repr

structure PlayerStatsInput where
  player_id : String
  year : Int
  position : String
deriving DecidableEq, Repr

structure ScheduleByDateInput where
  date : String
deriving DecidableEq, Repr

structure BoxscoreInput where
  game_pk : Int
  year : Int
  team_id : String
  game_date : String
deriving DecidableEq, Repr

structure StandingsInput where
  season : Int
  league_id : Int
deriving DecidableEq, Repr

structure PlayerBioInput where
  player_id : String
deriving DecidableEq, Repr

structure TeamScheduleInput where
  team_id : String
  season : Int
deriving DecidableEq, Repr

structure GameContentInput where
  game_pk : Int
deriving DecidableEq, Repr

structure LeagueLeadersInput where
  category : String
  season : Int
deriving DecidableEq, Repr

structure AwardsInput where
  season : Int
deriving DecidableEq, Repr

structure VenuesInput where
  season : Int
deriving DecidableEq, Repr

structure AttendanceInput where
  season : Option Int := none
  teamId : Option Int := none
  date : Option String := none
deriving DecidableEq, Repr

structure AwardWinnersInput where
  award_id : String
  season : Int
deriving DecidableEq, Repr

structure DivisionsInput where
  season : Option Int := none
deriving DecidableEq, Repr

structure DraftInput where
  year : Option Int := none
  round : Option Int := none
  name : Option String := none
  school : Option String := none
  state : Option String := none
  country : Option String := none
  position : Option String := none
  teamId : Option Int := none
  playerId : Option Int := none
  bisPlayerId : Option Int := none
  latest : Option Bool := some false
  prospects : Option Bool := some false
deriving DecidableEq, Repr

structure GameChangesInput where
  updatedSince : String
  sportId : Option Int := some 1
  gameType : Option String := none
  season : Option Int := none
  fields : Option String := none
deriving DecidableEq, Repr

structure GameContextMetricsInput where
  gamePk : Int
  timecode : Option String := none
deriving DecidableEq, Repr

structure GameLinescoreInput where
  gamePk : String
  timecode : Option String := none
deriving DecidableEq, Repr

structure GameUniformsInput where
  gamePks : String
  fields : Option String := none
deriving DecidableEq, Repr

structure GamePaceInput where
  season : String
  teamIds : Option String := none
  leagueIds : Option String := none
  leagueListId : Option String := none
  gameType : Option String := none
  startDate : Option String := none
  endDate : Option String := none
  venueIds : Option String := none
  orgType : Option String := none
  includeChildren : Option Bool := none
  fields : Option String := none
deriving DecidableEq, Repr

structure HighLowPlayerInput where
  sortStat : String
  season : String
  statGroup : Option String := some "hitting"
  gameType : Option String := none
  leagueId : Option Int := none
  sportIds : Option String := some "1"
  teamId : Option Int := none
  limit : Option Int := some 5
deriving DecidableEq, Repr

/-- `HighLowTeamInput(HighLowPlayerInput)`: same fields reused. -/
abbrev HighLowTeamInput := HighLowPlayerInput

structure AllStarBallotInput where
  leagueId : String
  season : String
deriving DecidableEq, Repr

/-- `AllStarWriteInsInput(AllStarBallotInput)`: same fields reused. -/
abbrev AllStarWriteInsInput := AllStarBallotInput

/-- `AllStarFinalVoteInput(AllStarBallotInput)`: same fields reused. -/
abbrev AllStarFinalVoteInput := AllStarBallotInput

structure PeopleFreeAgentsInput where
  leagueId : String
  order : Option String := none
  hydrate : Option String := none
  fields : Option String := none
  season : String
deriving DecidableEq, Repr

structure JobsUmpiresInput where
  sportId : Option String := some "1"
  date : Option String := none
  fields : Option String := none
deriving DecidableEq, Repr

/-- `JobsDatacastersInput(JobsUmpiresInput)`: same fields reused. -/
abbrev JobsDatacastersInput := JobsUmpiresInput

structure JobsOfficialScorersInput where
  timecode : Option String := none
  fields : Option String := none
deriving DecidableEq, Repr

structure ScheduleTiedGamesInput where
  season : String
  gameTypes : Option String := none
  hydrate : Option String := none
  fields : Option String := none
deriving DecidableEq, Repr

structure SchedulePostseasonInput where
  gameTypes : Option String := none
  seriesNumber : Option String := none
  teamId : Option Int := none
  sportId : Option Int := none
  season : Option String := none
  hydrate : Option String := none
  fields : Option String := none
deriving DecidableEq, Repr

structure SeasonsInput where
  season : Option String := none
  all : Option Bool := some false
  leagueId : Option Int := none
  divisionId : Option Int := none
  fields : Option String := none
deriving DecidableEq, Repr

structure SeasonByIdInput where
  seasonId : String
  fields : Option String := none
deriving DecidableEq, Repr

structure MLBStatsInput where
  stats : String
  group : String
  playerPool : Option String := none
  position : Option String := none
  teamId : Option Int := none
  leagueId : Option Int := none
  sportIds : Option String := some "1"
  gameType : Option String := none
  season : Option String := none
  sortStat : Option String := none
  order : Option String := none
  limit : Option Int := some 50
  offset : Option Int := some 0
  hydrate : Option String := none
  fields : Option String := none
  personId : Option String := none
  metrics : Option String := none
  startDate : Option String := none
  endDate : Option String := none
deriving DecidableEq, Repr

structure TeamHistoryInput where
  teamIds : String
  startSeason : Option String := none
  endSeason : Option String := none
  fields : Option String := none
deriving DecidableEq, Repr

structure TeamStatsInput where
  season : String
  group : String
  stats : String
  gameType : Option String := none
  order : Option String := none
  sortStat : Option String := none
  fields : Option String := none
  startDate : Option String := none
  endDate : Option String := none
deriving DecidableEq, Repr

structure TeamAffiliatesInput where
  teamIds : String
  season : Option String := none
  hydrate : Option String := none
  fields : Option String := none
deriving DecidableEq, Repr

structure TeamAlumniInput where
  teamId : String
  season : String
  group : String
  hydrate : Option String := none
  fields : Option String := none
deriving DecidableEq, Repr

structure TeamCoachesInput where
  teamId : String
  season : Option String := none
  date : Option String := none
  fields : Option String := none
deriving DecidableEq, Repr

/-- `TeamPersonnelInput(TeamCoachesInput)`: same fields reused. -/
abbrev TeamPersonnelInput := TeamCoachesInput

structure TeamLeadersInput where
  teamId : String
  leaderCategories : String
  season : String
  leaderGameTypes : Option String := none
  hydrate : Option String := none
  limit : Option Int := none
  fields : Option String := none
deriving DecidableEq, Repr

structure TeamStatsByIdInput where
  teamId : String
  season : String
  group : String
  stats : Option String := none
  gameType : Option String := none
  sportIds : Option String := some "1"
  sitCodes : Option String := none
  fields : Option String := none
deriving DecidableEq, Repr

structure TeamUniformsInput where
  teamIds : String
  season : Option String := none
  fields : Option String := none
deriving DecidableEq, Repr

structure TransactionsInput where
  teamId : Option String := none
  playerId : Option String := none
  date : Option String := none
  startDate : Option String := none
  endDate : Option String := none
  fields : Option String := none
deriving DecidableEq, Repr

/-! ## Tool handlers (main.py lines 305-621)

Each `@mcp.tool` handler is embedded as the outbound `Request` it builds from
its validated input: the URL is the f-string of the source, the query mapping
is the `query_params` dict at the moment of the `http_client.get` call, the
headers are always `HEADERS`, and `get` sends no body. -/

def mlb_get_all_teams (params : TeamsForYearInput) : Request :=
  { method := .GET
    url := MLB_BASE ++ "/teams"
    query := [("sportId", .int 1), ("season", .int params.year)]
    headers := HEADERS
    body := none }

def mlb_get_team_roster (params : TeamRosterInput) : Request :=
  { method := .GET
    url := MLB_BASE ++ ("/teams/" ++ params.team_id ++ "/roster")
    query := [("season", .int params.year)]
    headers := HEADERS
    body := none }

def mlb_get_player_stats (params : PlayerStatsInput) : Request :=
  { method := .GET
    url := MLB_BASE ++ ("/people/" ++ params.player_id ++ "/stats")
    query := [("stats", .str "season"),
              ("group", .str (if pyUpper params.position = "P" then "pitching" else "hitting")),
              ("season", .int params.year)]
    headers := HEADERS
    body := none }

def mlb_get_schedule_by_date (params : ScheduleByDateInput) : Request :=
  { method := .GET
    url := MLB_BASE ++ "/schedule"
    query := [("sportId", .int 1), ("date", .str params.date)]
    headers := HEADERS
    body := none }

def mlb_get_boxscore (params : BoxscoreInput) : Request :=
  { method := .GET
    url := MLB_BASE ++ ("/game/" ++ toString params.game_pk ++ "/boxscore")
    query := []
    headers := HEADERS
    body := none }

def mlb_get_standings (params : StandingsInput) : Request :=
  { method := .GET
    url := MLB_BASE ++ "/standings"
    query := [("season", .int params.season), ("league_id", .int params.league_id)]
    headers := HEADERS
    body := none }

def mlb_get_player_bio (params : PlayerBioInput) : Request :=
  { method := .GET
    url := MLB_BASE ++ ("/people/" ++ params.player_id)
    query := []
    headers := HEADERS
    body := none }

def mlb_get_team_schedule (params : TeamScheduleInput) : Request :=
  { method := .GET
    url := MLB_BASE ++ "/schedule"
    query := [("sportId", .int 1), ("teamId", .str params.team_id), ("season", .int params.season)]
    headers := HEADERS
    body := none }

def mlb_get_game_content (params : GameContentInput) : Request :=
  { method := .GET
    url := MLB_BASE ++ ("/game/" ++ toString params.game_pk ++ "/content")
    query := []
    headers := HEADERS
    body := none }

def mlb_get_league_leaders (params : LeagueLeadersInput) : Request :=
  { method := .GET
    url := MLB_BASE ++ "/stats/leaders"
    query := [("leaderCategories", .str params.category), ("season", .int params.season),
              ("sportId", .int 1)]
    headers := HEADERS
    body := none }

def mlb_get_awards (params : AwardsInput) : Request :=
  { method := .GET
    url := MLB_BASE ++ "/awards"
    query := [("season", .int params.season)]
    headers := HEADERS
    body := none }

def mlb_get_venues (params : VenuesInput) : Request :=
  { method := .GET
    url := MLB_BASE ++ "/venues"
    query := [("season", .int params.season)]
    headers := HEADERS
    body := none }

/-- `model_dump(exclude_none=True)` of `AttendanceInput`, in field order. -/
def AttendanceInput.dump (p : AttendanceInput) : Query :=
  optInt "season" p.season ++ optInt "teamId" p.teamId ++ optStr "date" p.date

def mlb_get_attendance (params : AttendanceInput) : Request :=
  { method := .GET
    url := MLB_BASE ++ "/attendance"
    query := setKey params.dump "leagueListId" (.str "mlb")
    headers := HEADERS
    body := none }

def mlb_get_award_winners (params : AwardWinnersInput) : Request :=
  { method := .GET
    url := MLB_BASE ++ ("/awards/" ++ params.award_id ++ "/recipients")
    query := [("season", .int params.season), ("sportId", .int 1)]
    headers := HEADERS
    body := none }

/-- `model_dump(exclude_none=True)` of `DivisionsInput`. -/
def DivisionsInput.dump (p : DivisionsInput) : Query :=
  optInt "season" p.season

def mlb_get_divisions (params : DivisionsInput) : Request :=
  { method := .GET
    url := MLB_BASE ++ "/divisions"
    query := setKey params.dump "sportId" (.int 1)
    headers := HEADERS
    body := none }

/-- `model_dump(exclude_none=True)` of `DraftInput`, excluding the year field. -/
def DraftInput.dump (p : DraftInput) : Query :=
  optInt "round" p.round ++ optStr "name" p.name ++ optStr "school" p.school ++
  optStr "state" p.state ++ optStr "country" p.country ++ optStr "position" p.position ++
  optInt "teamId" p.teamId ++ optInt "playerId" p.playerId ++ optInt "bisPlayerId" p.bisPlayerId ++
  optBool "latest" p.latest ++ optBool "prospects" p.prospects

def mlb_get_draft (params : DraftInput) : Request :=
  { method := .GET
    url := MLB_BASE ++ ("/draft/" ++ pyStrOptInt params.year)
    query := params.dump
    headers := HEADERS
    body := none }

/-- `model_dump(exclude_none=True)` of `GameChangesInput`. -/
def GameChangesInput.dump (p : GameChangesInput) : Query :=
  [("updatedSince", .str p.updatedSince)] ++ optInt "sportId" p.sportId ++
  optStr "gameType" p.gameType ++ optInt "season" p.season ++ optStr "fields" p.fields

def mlb_get_game_changes (params : GameChangesInput) : Request :=
  { method := .GET
    url := MLB_BASE ++ "/game/changes"
    query := params.dump
    headers := HEADERS
    body := none }

def mlb_get_game_context_metrics (params : GameContextMetricsInput) : Request :=
  { method := .GET
    url := MLB_BASE ++ ("/game/" ++ toString params.gamePk ++ "/contextMetrics")
    query := optStr "timecode" params.timecode
    headers := HEADERS
    body := none }

def mlb_get_game_linescore (params : GameLinescoreInput) : Request :=
  { method := .GET
    url := MLB_BASE ++ ("/game/" ++ params.gamePk ++ "/linescore")
    query := optStr "timecode" params.timecode
    headers := HEADERS
    body := none }

def mlb_get_game_uniforms (params : GameUniformsInput) : Request :=
  { method := .GET
    url := MLB_BASE ++ "/uniforms/game"
    query := [("gamePks", .str params.gamePks)] ++ optStr "fields" params.fields
    headers := HEADERS
    body := none }

/-- `model_dump(exclude_none=True)` of `GamePaceInput`. -/
def GamePaceInput.dump (p : GamePaceInput) : Query :=
  [("season", .str p.season)] ++ optStr "teamIds" p.teamIds ++ optStr "leagueIds" p.leagueIds ++
  optStr "leagueListId" p.leagueListId ++ optStr "gameType" p.gameType ++
  optStr "startDate" p.startDate ++ optStr "endDate" p.endDate ++
  optStr "venueIds" p.venueIds ++ optStr "orgType" p.orgType ++
  optBool "includeChildren" p.includeChildren ++ optStr "fields" p.fields

def mlb_get_game_pace (params : GamePaceInput) : Request :=
  { method := .GET
    url := MLB_BASE ++ "/gamePace"
    query := setKey params.dump "sportId" (.int 1)
    headers := HEADERS
    body := none }

/-- `model_dump(exclude_none=True)` of `HighLowPlayerInput`. -/
def HighLowPlayerInput.dump (p : HighLowPlayerInput) : Query :=
  [("sortStat", .str p.sortStat), ("season", .str p.season)] ++
  optStr "statGroup" p.statGroup ++ optStr "gameType" p.gameType ++
  optInt "leagueId" p.leagueId ++ optStr "sportIds" p.sportIds ++
  optInt "teamId" p.teamId ++ optInt "limit" p.limit

def mlb_get_highlow_players (params : HighLowPlayerInput) : Request :=
  { method := .GET
    url := MLB_BASE ++ "/highLow/player"
    query := setKey params.dump "sportIds" (.int 1)
    headers := HEADERS
    body := none }

def mlb_get_highlow_teams (params : HighLowTeamInput) : Request :=
  { method := .GET
    url := MLB_BASE ++ "/highLow/team"
    query := setKey params.dump "sportIds" (.int 1)
    headers := HEADERS
    body := none }

def mlb_get_all_star_ballot (params : AllStarBallotInput) : Request :=
  { method := .GET
    url := MLB_BASE ++ ("/league/" ++ params.leagueId ++ "/allStarBallot")
    query := [("season", .str params.season)]
    headers := HEADERS
    body := none }

def mlb_get_all_star_write_ins (params : AllStarWriteInsInput) : Request :=
  { method := .GET
    url := MLB_BASE ++ ("/league/" ++ params.leagueId ++ "/allStarWriteIns")
    query := [("season", .str params.season)]
    headers := HEADERS
    body := none }

def mlb_get_all_star_final_vote (params : AllStarFinalVoteInput) : Request :=
  { method := .GET
    url := MLB_BASE ++ ("/league/" ++ params.leagueId ++ "/allStarFinalVote")
    query := [("season", .str params.season)]
    headers := HEADERS
    body := none }

/-- `model_dump(exclude_none=True)` of `PeopleFreeAgentsInput`, field order. -/
def PeopleFreeAgentsInput.dump (p : PeopleFreeAgentsInput) : Query :=
  [("leagueId", .str p.leagueId)] ++ optStr "order" p.order ++ optStr "hydrate" p.hydrate ++
  optStr "fields" p.fields ++ [("season", .str p.season)]

def mlb_get_people_free_agents (params : PeopleFreeAgentsInput) : Request :=
  { method := .GET
    url := MLB_BASE ++ "/people/freeAgents"
    query := params.dump
    headers := HEADERS
    body := none }

/-- `model_dump(exclude_none=True)` of `JobsUmpiresInput`. -/
def JobsUmpiresInput.dump (p : JobsUmpiresInput) : Query :=
  optStr "sportId" p.sportId ++ optStr "date" p.date ++ optStr "fields" p.fields

def mlb_get_jobs_umpires (params : JobsUmpiresInput) : Request :=
  { method := .GET
    url := MLB_BASE ++ "/jobs/umpires"
    query := params.dump
    headers := HEADERS
    body := none }

def mlb_get_jobs_datacasters (params : JobsDatacastersInput) : Request :=
  { method := .GET
    url := MLB_BASE ++ "/jobs/datacasters"
    query := params.dump
    headers := HEADERS
    body := none }

/-- `model_dump(exclude_none=True)` of `JobsOfficialScorersInput`. -/
def JobsOfficialScorersInput.dump (p : JobsOfficialScorersInput) : Query :=
  optStr "timecode" p.timecode ++ optStr "fields" p.fields

def mlb_get_jobs_official_scorers (params : JobsOfficialScorersInput) : Request :=
  { method := .GET
    url := MLB_BASE ++ "/jobs/officialScorers"
    query := params.dump
    headers := HEADERS
    body := none }

/-- `model_dump(exclude_none=True)` of `ScheduleTiedGamesInput`. -/
def ScheduleTiedGamesInput.dump (p : ScheduleTiedGamesInput) : Query :=
  [("season", .str p.season)] ++ optStr "gameTypes" p.gameTypes ++
  optStr "hydrate" p.hydrate ++ optStr "fields" p.fields

def mlb_get_schedule_tied_games (params : ScheduleTiedGamesInput) : Request :=
  { method := .GET
    url := MLB_BASE ++ "/schedule/games/tied"
    query := params.dump
    headers := HEADERS
    body := none }

/-- `model_dump(exclude_none=True)` of `SchedulePostseasonInput`. -/
def SchedulePostseasonInput.dump (p : SchedulePostseasonInput) : Query :=
  optStr "gameTypes" p.gameTypes ++ optStr "seriesNumber" p.seriesNumber ++
  optInt "teamId" p.teamId ++ optInt "sportId" p.sportId ++ optStr "season" p.season ++
  optStr "hydrate" p.hydrate ++ optStr "fields" p.fields

def mlb_get_schedule_postseason (params : SchedulePostseasonInput) : Request :=
  { method := .GET
    url := MLB_BASE ++ "/schedule/postseason"
    query := params.dump
    headers := HEADERS
    body := none }

def mlb_get_schedule_postseason_series (params : SchedulePostseasonInput) : Request :=
  { method := .GET
    url := MLB_BASE ++ "/schedule/postseason/series"
    query := params.dump
    headers := HEADERS
    body := none }

/-- `model_dump(exclude_none=True)` of `SeasonsInput`, excluding the all field. -/
def SeasonsInput.dump (p : SeasonsInput) : Query :=
  optStr "season" p.season ++ optInt "leagueId" p.leagueId ++
  optInt "divisionId" p.divisionId ++ optStr "fields" p.fields

def mlb_get_seasons (params : SeasonsInput) : Request :=
  { method := .GET
    url := MLB_BASE ++ (if pyTruthy params.all then "/seasons/all" else "/seasons")
    query := params.dump
    headers := HEADERS
    body := none }

def mlb_get_season_by_id (params : SeasonByIdInput) : Request :=
  { method := .GET
    url := MLB_BASE ++ ("/seasons/" ++ params.seasonId)
    query := [("sportId", .int 1)]
    headers := HEADERS
    body := none }

/-- `model_dump(exclude_none=True)` of `MLBStatsInput`, field order. -/
def MLBStatsInput.dump (p : MLBStatsInput) : Query :=
  [("stats", .str p.stats), ("group", .str p.group)] ++
  optStr "playerPool" p.playerPool ++ optStr "position" p.position ++
  optInt "teamId" p.teamId ++ optInt "leagueId" p.leagueId ++
  optStr "sportIds" p.sportIds ++ optStr "gameType" p.gameType ++
  optStr "season" p.season ++ optStr "sortStat" p.sortStat ++ optStr "order" p.order ++
  optInt "limit" p.limit ++ optInt "offset" p.offset ++ optStr "hydrate" p.hydrate ++
  optStr "fields" p.fields ++ optStr "personId" p.personId ++ optStr "metrics" p.metrics ++
  optStr "startDate" p.startDate ++ optStr "endDate" p.endDate

def mlb_get_stats (params : MLBStatsInput) : Request :=
  { method := .GET
    url := MLB_BASE ++ "/stats"
    query := params.dump
    headers := HEADERS
    body := none }

/-- `model_dump(exclude_none=True)` of `TeamHistoryInput`. -/
def TeamHistoryInput.dump (p : TeamHistoryInput) : Query :=
  [("teamIds", .str p.teamIds)] ++ optStr "startSeason" p.startSeason ++
  optStr "endSeason" p.endSeason ++ optStr "fields" p.fields

def mlb_get_team_history (params : TeamHistoryInput) : Request :=
  { method := .GET
    url := MLB_BASE ++ "/teams/history"
    query := params.dump
    headers := HEADERS
    body := none }

/-- `model_dump(exclude_none=True)` of `TeamStatsInput`. -/
def TeamStatsInput.dump (p : TeamStatsInput) : Query :=
  [("season", .str p.season), ("group", .str p.group), ("stats", .str p.stats)] ++
  optStr "gameType" p.gameType ++ optStr "order" p.order ++ optStr "sortStat" p.sortStat ++
  optStr "fields" p.fields ++ optStr "startDate" p.startDate ++ optStr "endDate" p.endDate

def mlb_get_team_stats (params : TeamStatsInput) : Request :=
  { method := .GET
    url := MLB_BASE ++ "/teams/stats"
    query := setKey params.dump "sportIds" (.int 1)
    headers := HEADERS
    body := none }

/-- `model_dump(exclude_none=True)` of `TeamAffiliatesInput`. -/
def TeamAffiliatesInput.dump (p : TeamAffiliatesInput) : Query :=
  [("teamIds", .str p.teamIds)] ++ optStr "season" p.season ++
  optStr "hydrate" p.hydrate ++ optStr "fields" p.fields

def mlb_get_team_affiliates (params : TeamAffiliatesInput) : Request :=
  { method := .GET
    url := MLB_BASE ++ "/teams/affiliates"
    query := setKey params.dump "sportId" (.int 1)
    headers := HEADERS
    body := none }

/-- `model_dump(exclude_none=True)` of `TeamAlumniInput`, excluding the teamId field. -/
def TeamAlumniInput.dump (p : TeamAlumniInput) : Query :=
  [("season", .str p.season), ("group", .str p.group)] ++
  optStr "hydrate" p.hydrate ++ optStr "fields" p.fields

def mlb_get_team_alumni (params : TeamAlumniInput) : Request :=
  { method := .GET
    url := MLB_BASE ++ ("/teams/" ++ params.teamId ++ "/alumni")
    query := params.dump
    headers := HEADERS
    body := none }

/-- `model_dump(exclude_none=True)` of `TeamCoachesInput`, excluding the teamId field. -/
def TeamCoachesInput.dump (p : TeamCoachesInput) : Query :=
  optStr "season" p.season ++ optStr "date" p.date ++ optStr "fields" p.fields

def mlb_get_team_coaches (params : TeamCoachesInput) : Request :=
  { method := .GET
    url := MLB_BASE ++ ("/teams/" ++ params.teamId ++ "/coaches")
    query := params.dump
    headers := HEADERS
    body := none }

def mlb_get_team_personnel (params : TeamCoachesInput) : Request :=
  { method := .GET
    url := MLB_BASE ++ ("/teams/" ++ params.teamId ++ "/personnel")
    query := params.dump
    headers := HEADERS
    body := none }

/-- `model_dump(exclude_none=True)` of `TeamLeadersInput`, excluding the teamId field. -/
def TeamLeadersInput.dump (p : TeamLeadersInput) : Query :=
  [("leaderCategories", .str p.leaderCategories), ("season", .str p.season)] ++
  optStr "leaderGameTypes" p.leaderGameTypes ++ optStr "hydrate" p.hydrate ++
  optInt "limit" p.limit ++ optStr "fields" p.fields

def mlb_get_team_leaders (params : TeamLeadersInput) : Request :=
  { method := .GET
    url := MLB_BASE ++ ("/teams/" ++ params.teamId ++ "/leaders")
    query := params.dump
    headers := HEADERS
    body := none }

/-- `model_dump(exclude_none=True)` of `TeamStatsByIdInput`, excluding the teamId field. -/
def TeamStatsByIdInput.dump (p : TeamStatsByIdInput) : Query :=
  [("season", .str p.season), ("group", .str p.group)] ++
  optStr "stats" p.stats ++ optStr "gameType" p.gameType ++
  optStr "sportIds" p.sportIds ++ optStr "sitCodes" p.sitCodes ++ optStr "fields" p.fields

def mlb_get_team_stats_by_id (params : TeamStatsByIdInput) : Request :=
  { method := .GET
    url := MLB_BASE ++ ("/teams/" ++ params.teamId ++ "/stats")
    query := setKey params.dump "sportIds" (.int 1)
    headers := HEADERS
    body := none }

/-- `model_dump(exclude_none=True)` of `TeamUniformsInput`. -/
def TeamUniformsInput.dump (p : TeamUniformsInput) : Query :=
  [("teamIds", .str p.teamIds)] ++ optStr "season" p.season ++ optStr "fields" p.fields

def mlb_get_team_uniforms (params : TeamUniformsInput) : Request :=
  { method := .GET
    url := MLB_BASE ++ "/uniforms/team"
    query := params.dump
    headers := HEADERS
    body := none }

/-- `model_dump(exclude_none=True)` of `TransactionsInput`. -/
def TransactionsInput.dump (p : TransactionsInput) : Query :=
  optStr "teamId" p.teamId ++ optStr "playerId" p.playerId ++ optStr "date" p.date ++
  optStr "startDate" p.startDate ++ optStr "endDate" p.endDate ++ optStr "fields" p.fields

def mlb_get_transactions (params : TransactionsInput) : Request :=
  { method := .GET
    url := MLB_BASE ++ "/transactions"
    query := setKey params.dump "sportId" (.int 1)
    headers := HEADERS
    body := none }

/-! ## Upstream response handling

Every handler ends with `res.raise_for_status()` followed by `return
res.json()`. httpx raises `HTTPStatusError` for any response whose status is
outside the 2xx success range; the raised error carries the response, from
which the status code and body are retrievable. The parsed JSON body is left
abstract as a type parameter: the handlers never reshape it. -/

/-- An upstream response: status code and (already parsed) body. -/
structure HttpResponse (α : Type) where
  status : Nat
  body : α
deriving DecidableEq, Repr

/-- The error a failed dispatch carries: the non-success status code and the
upstream response body (httpx `HTTPStatusError.response`). -/
structure UpstreamError (α : Type) where
  status : Nat
  body : α
deriving DecidableEq, Repr

/-- httpx `Response.is_success`: the 2xx range. -/
def is_success (status : Nat) : Bool :=
  decide (200 ≤ status) && decide (status < 300)

/-- `res.raise_for_status()`: the response itself on 2xx, an error carrying
status and body on any other status. -/
def raise_for_status (res : HttpResponse α) : Except (UpstreamError α) (HttpResponse α) :=
  if is_success res.status then .ok res else .error ⟨res.status, res.body⟩

/-- One full handler run against a network oracle `net`: the list of outbound
requests it issues (always exactly the one it built — the source has no retry
and no second call) and its result: `res.json()` on success, the raised
status error otherwise. -/
def runTool (r : Request) (net : Request → HttpResponse α) :
    List Request × Except (UpstreamError α) α :=
  ([r], (raise_for_status (net r)).map HttpResponse.body)

/-! ## The tool surface as one sum type

`ToolCall` packages every registered tool with its validated input;
`requestOf` is the outbound request the corresponding handler builds. -/

inductive ToolCall where
  | allTeams (p : TeamsForYearInput)
  | teamRoster (p : TeamRosterInput)
  | playerStats (p : PlayerStatsInput)
  | scheduleByDate (p : ScheduleByDateInput)
  | boxscore (p : BoxscoreInput)
  | standings (p : StandingsInput)
  | playerBio (p : PlayerBioInput)
  | teamSchedule (p : TeamScheduleInput)
  | gameContent (p : GameContentInput)
  | leagueLeaders (p : LeagueLeadersInput)
  | awards (p : AwardsInput)
  | venues (p : VenuesInput)
  | attendance (p : AttendanceInput)
  | awardWinners (p : AwardWinnersInput)
  | divisions (p : DivisionsInput)
  | draft (p : DraftInput)
  | gameChanges (p : GameChangesInput)
  | gameContextMetrics (p : GameContextMetricsInput)
  | gameLinescore (p : GameLinescoreInput)
  | gameUniforms (p : GameUniformsInput)
  | gamePace (p : GamePaceInput)
  | highlowPlayers (p : HighLowPlayerInput)
  | highlowTeams (p : HighLowTeamInput)
  | allStarBallot (p : AllStarBallotInput)
  | allStarWriteIns (p : AllStarWriteInsInput)
  | allStarFinalVote (p : AllStarFinalVoteInput)
  | peopleFreeAgents (p : PeopleFreeAgentsInput)
  | jobsUmpires (p : JobsUmpiresInput)
  | jobsDatacasters (p : JobsDatacastersInput)
  | jobsOfficialScorers (p : JobsOfficialScorersInput)
  | scheduleTiedGames (p : ScheduleTiedGamesInput)
  | schedulePostseason (p : SchedulePostseasonInput)
  | schedulePostseasonSeries (p : SchedulePostseasonInput)
  | seasons (p : SeasonsInput)
  | seasonById (p : SeasonByIdInput)
  | stats (p : MLBStatsInput)
  | teamHistory (p : TeamHistoryInput)
  | teamStats (p : TeamStatsInput)
  | teamAffiliates (p : TeamAffiliatesInput)
  | teamAlumni (p : TeamAlumniInput)
  | teamCoaches (p : TeamCoachesInput)
  | teamPersonnel (p : TeamPersonnelInput)
  | teamLeaders (p : TeamLeadersInput)
  | teamStatsById (p : TeamStatsByIdInput)
  | teamUniforms (p : TeamUniformsInput)
  | transactions (p : TransactionsInput)

/-- The outbound request the handler of the tool builds for its validated input. -/
def requestOf : ToolCall → Request
  | .allTeams p => mlb_get_all_teams p
  | .teamRoster p => mlb_get_team_roster p
  | .playerStats p => mlb_get_player_stats p
  | .scheduleByDate p => mlb_get_schedule_by_date p
  | .boxscore p => mlb_get_boxscore p
  | .standings p => mlb_get_standings p
  | .playerBio p => mlb_get_player_bio p
  | .teamSchedule p => mlb_get_team_schedule p
  | .gameContent p => mlb_get_game_content p
  | .leagueLeaders p => mlb_get_league_leaders p
  | .awards p => mlb_get_awards p
  | .venues p => mlb_get_venues p
  | .attendance p => mlb_get_attendance p
  | .awardWinners p => mlb_get_award_winners p
  | .divisions p => mlb_get_divisions p
  | .draft p => mlb_get_draft p
  | .gameChanges p => mlb_get_game_changes p
  | .gameContextMetrics p => mlb_get_game_context_metrics p
  | .gameLinescore p => mlb_get_game_linescore p
  | .gameUniforms p => mlb_get_game_uniforms p
  | .gamePace p => mlb_get_game_pace p
  | .highlowPlayers p => mlb_get_highlow_players p
  | .highlowTeams p => mlb_get_highlow_teams p
  | .allStarBallot p => mlb_get_all_star_ballot p
  | .allStarWriteIns p => mlb_get_all_star_write_ins p
  | .allStarFinalVote p => mlb_get_all_star_final_vote p
  | .peopleFreeAgents p => mlb_get_people_free_agents p
  | .jobsUmpires p => mlb_get_jobs_umpires p
  | .jobsDatacasters p => mlb_get_jobs_datacasters p
  | .jobsOfficialScorers p => mlb_get_jobs_official_scorers p
  | .scheduleTiedGames p => mlb_get_schedule_tied_games p
  | .schedulePostseason p => mlb_get_schedule_postseason p
  | .schedulePostseasonSeries p => mlb_get_schedule_postseason_series p
  | .seasons p => mlb_get_seasons p
  | .seasonById p => mlb_get_season_by_id p
  | .stats p => mlb_get_stats p
  | .teamHistory p => mlb_get_team_history p
  | .teamStats p => mlb_get_team_stats p
  | .teamAffiliates p => mlb_get_team_affiliates p
  | .teamAlumni p => mlb_get_team_alumni p
  | .teamCoaches p => mlb_get_team_coaches p
  | .teamPersonnel p => mlb_get_team_personnel p
  | .teamLeaders p => mlb_get_team_leaders p
  | .teamStatsById p => mlb_get_team_stats_by_id p
  | .teamUniforms p => mlb_get_team_uniforms p
  | .transactions p => mlb_get_transactions p

/-- One full dispatch of a validated tool call against a network oracle. -/
def dispatch (c : ToolCall) (net : Request → HttpResponse α) :
    List Request × Except (UpstreamError α) α :=
  runTool (requestOf c) net

/-! ## Payload validation (the pydantic step run before any handler)

The FastMCP runtime validates the raw tool payload against the pydantic model of the handler before the handler body runs; a handler is only invoked (and
therefore only issues a request) on a payload that validated. Each model
class of main.py becomes a field table; `validate` is pydantic lax-mode
validation: every required field must be present and type-coercible, every
validation problem is collected and reported by field name, and optional
fields absent from the payload take their declared defaults. -/

/-- A raw JSON-ish value of an incoming payload. -/
inductive RawVal where
  | rInt (n : Int)
  | rStr (s : String)
  | rBool (b : Bool)
  | rNull
deriving DecidableEq, Repr

/-- A raw tool payload: the key-value mapping the MCP client sent. -/
abbrev Payload := List (String × RawVal)

/-- Declared semantic type of a model field. -/
inductive FType where
  | fInt
  | fStr
  | fBool
deriving DecidableEq, Repr

/-- One field of a pydantic model: its name, declared type, whether it is
required, and (for optional fields) the declared default. -/
structure FieldSpec where
  name : String
  ftype : FType
  required : Bool
  dflt : RawVal := .rNull
deriving DecidableEq, Repr

/-- Lax-mode coercion of a present raw value to a declared type: exact type
matches pass; numeric strings coerce to int; the usual boolean spellings
coerce to bool. Anything else is a type error. -/
def coerceCore (t : FType) (v : RawVal) : Option RawVal :=
  match t, v with
  | .fInt, .rInt n => some (.rInt n)
  | .fInt, .rStr s => (s.toInt?).map .rInt
  | .fStr, .rStr s => some (.rStr s)
  | .fBool, .rBool b => some (.rBool b)
  | .fBool, .rStr "true" => some (.rBool true)
  | .fBool, .rStr "false" => some (.rBool false)
  | .fBool, .rInt 0 => some (.rBool false)
  | .fBool, .rInt 1 => some (.rBool true)
  | _, _ => none

/-- Coercion for one field: `Optional[...]` fields additionally accept an
explicit null. -/
def coerceField (f : FieldSpec) (v : RawVal) : Option RawVal :=
  if f.required then coerceCore f.ftype v
  else match v with
    | .rNull => some .rNull
    | _ => coerceCore f.ftype v

/-- The validation failure pydantic reports: every missing required field and
every field whose value failed coercion, by name. -/
structure ValidationError where
  missing : List String
  invalid : List String
deriving DecidableEq, Repr

/-- First value bound to a key of the payload. -/
def lookupRaw (p : Payload) (k : String) : Option RawVal :=
  (p.find? (fun e => e.1 == k)).map (fun e => e.2)

/-- Names of the required fields the payload omits. -/
def missingOf (fs : List FieldSpec) (p : Payload) : List String :=
  (fs.filter (fun f => f.required && (lookupRaw p f.name).isNone)).map (fun f => f.name)

/-- Names of the present fields whose values fail coercion. -/
def invalidOf (fs : List FieldSpec) (p : Payload) : List String :=
  (fs.filter (fun f =>
    match lookupRaw p f.name with
    | some v => (coerceField f v).isNone
    | none => false)).map (fun f => f.name)

/-- Pydantic validation of a raw payload against the field table of a model: on
success, the coerced field values in declaration order with defaults filled
in; on failure, the collected per-field problems. -/
def validate (fs : List FieldSpec) (p : Payload) : Except ValidationError Payload :=
  let miss := missingOf fs p
  let bad := invalidOf fs p
  if miss.isEmpty && bad.isEmpty then
    .ok (fs.map (fun f => (f.name,
      match lookupRaw p f.name with
      | some v => (coerceField f v).getD v
      | none => f.dflt)))
  else
    .error ⟨miss, bad⟩

/-! Field tables of the model classes, in declaration order (main.py 32-301). -/

def TeamsForYearInput.schema : List FieldSpec :=
  [⟨"year", .fInt, true, .rNull⟩]

def TeamRosterInput.schema : List FieldSpec :=
  [⟨"team_id", .fStr, true, .rNull⟩, ⟨"year", .fInt, true, .rNull⟩]

def PlayerStatsInput.schema : List FieldSpec :=
  [⟨"player_id", .fStr, true, .rNull⟩, ⟨"year", .fInt, true, .rNull⟩,
   ⟨"position", .fStr, true, .rNull⟩]

def ScheduleByDateInput.schema : List FieldSpec :=
  [⟨"date", .fStr, true, .rNull⟩]

def BoxscoreInput.schema : List FieldSpec :=
  [⟨"game_pk", .fInt, true, .rNull⟩, ⟨"year", .fInt, true, .rNull⟩,
   ⟨"team_id", .fStr, true, .rNull⟩, ⟨"game_date", .fStr, true, .rNull⟩]

def StandingsInput.schema : List FieldSpec :=
  [⟨"season", .fInt, true, .rNull⟩, ⟨"league_id", .fInt, true, .rNull⟩]

def PlayerBioInput.schema : List FieldSpec :=
  [⟨"player_id", .fStr, true, .rNull⟩]

def TeamScheduleInput.schema : List FieldSpec :=
  [⟨"team_id", .fStr, true, .rNull⟩, ⟨"season", .fInt, true, .rNull⟩]

def GameContentInput.schema : List FieldSpec :=
  [⟨"game_pk", .fInt, true, .rNull⟩]

def LeagueLeadersInput.schema : List FieldSpec :=
  [⟨"category", .fStr, true, .rNull⟩, ⟨"season", .fInt, true, .rNull⟩]

def AwardsInput.schema : List FieldSpec :=
  [⟨"season", .fInt, true, .rNull⟩]

def VenuesInput.schema : List FieldSpec :=
  [⟨"season", .fInt, true, .rNull⟩]

def AttendanceInput.schema : List FieldSpec :=
  [⟨"season", .fInt, false, .rNull⟩, ⟨"teamId", .fInt, false, .rNull⟩,
   ⟨"date", .fStr, false, .rNull⟩]

def AwardWinnersInput.schema : List FieldSpec :=
  [⟨"award_id", .fStr, true, .rNull⟩, ⟨"season", .fInt, true, .rNull⟩]

def DivisionsInput.schema : List FieldSpec :=
  [⟨"season", .fInt, false, .rNull⟩]

def DraftInput.schema : List FieldSpec :=
  [⟨"year", .fInt, false, .rNull⟩, ⟨"round", .fInt, false, .rNull⟩,
   ⟨"name", .fStr, false, .rNull⟩, ⟨"school", .fStr, false, .rNull⟩,
   ⟨"state", .fStr, false, .rNull⟩, ⟨"country", .fStr, false, .rNull⟩,
   ⟨"position", .fStr, false, .rNull⟩, ⟨"teamId", .fInt, false, .rNull⟩,
   ⟨"playerId", .fInt, false, .rNull⟩, ⟨"bisPlayerId", .fInt, false, .rNull⟩,
   ⟨"latest", .fBool, false, .rBool false⟩, ⟨"prospects", .fBool, false, .rBool false⟩]

def GameChangesInput.schema : List FieldSpec :=
  [⟨"updatedSince", .fStr, true, .rNull⟩, ⟨"sportId", .fInt, false, .rInt 1⟩,
   ⟨"gameType", .fStr, false, .rNull⟩, ⟨"season", .fInt, false, .rNull⟩,
   ⟨"fields", .fStr, false, .rNull⟩]

def GameContextMetricsInput.schema : List FieldSpec :=
  [⟨"gamePk", .fInt, true, .rNull⟩, ⟨"timecode", .fStr, false, .rNull⟩]

def GameLinescoreInput.schema : List FieldSpec :=
  [⟨"gamePk", .fStr, true, .rNull⟩, ⟨"timecode", .fStr, false, .rNull⟩]

def GameUniformsInput.schema : List FieldSpec :=
  [⟨"gamePks", .fStr, true, .rNull⟩, ⟨"fields", .fStr, false, .rNull⟩]

def GamePaceInput.schema : List FieldSpec :=
  [⟨"season", .fStr, true, .rNull⟩, ⟨"teamIds", .fStr, false, .rNull⟩,
   ⟨"leagueIds", .fStr, false, .rNull⟩, ⟨"leagueListId", .fStr, false, .rNull⟩,
   ⟨"gameType", .fStr, false, .rNull⟩, ⟨"startDate", .fStr, false, .rNull⟩,
   ⟨"endDate", .fStr, false, .rNull⟩, ⟨"venueIds", .fStr, false, .rNull⟩,
   ⟨"orgType", .fStr, false, .rNull⟩, ⟨"includeChildren", .fBool, false, .rNull⟩,
   ⟨"fields", .fStr, false, .rNull⟩]

def HighLowPlayerInput.schema : List FieldSpec :=
  [⟨"sortStat", .fStr, true, .rNull⟩, ⟨"season", .fStr, true, .rNull⟩,
   ⟨"statGroup", .fStr, false, .rStr "hitting"⟩, ⟨"gameType", .fStr, false, .rNull⟩,
   ⟨"leagueId", .fInt, false, .rNull⟩, ⟨"sportIds", .fStr, false, .rStr "1"⟩,
   ⟨"teamId", .fInt, false, .rNull⟩, ⟨"limit", .fInt, false, .rInt 5⟩]

def AllStarBallotInput.schema : List FieldSpec :=
  [⟨"leagueId", .fStr, true, .rNull⟩, ⟨"season", .fStr, true, .rNull⟩]

def PeopleFreeAgentsInput.schema : List FieldSpec :=
  [⟨"leagueId", .fStr, true, .rNull⟩, ⟨"order", .fStr, false, .rNull⟩,
   ⟨"hydrate", .fStr, false, .rNull⟩, ⟨"fields", .fStr, false, .rNull⟩,
   ⟨"season", .fStr, true, .rNull⟩]

def JobsUmpiresInput.schema : List FieldSpec :=
  [⟨"sportId", .fStr, false, .rStr "1"⟩, ⟨"date", .fStr, false, .rNull⟩,
   ⟨"fields", .fStr, false, .rNull⟩]

def JobsOfficialScorersInput.schema : List FieldSpec :=
  [⟨"timecode", .fStr, false, .rNull⟩, ⟨"fields", .fStr, false, .rNull⟩]

def ScheduleTiedGamesInput.schema : List FieldSpec :=
  [⟨"season", .fStr, true, .rNull⟩, ⟨"gameTypes", .fStr, false, .rNull⟩,
   ⟨"hydrate", .fStr, false, .rNull⟩, ⟨"fields", .fStr, false, .rNull⟩]

def SchedulePostseasonInput.schema : List FieldSpec :=
  [⟨"gameTypes", .fStr, false, .rNull⟩, ⟨"seriesNumber", .fStr, false, .rNull⟩,
   ⟨"teamId", .fInt, false, .rNull⟩, ⟨"sportId", .fInt, false, .rNull⟩,
   ⟨"season", .fStr, false, .rNull⟩, ⟨"hydrate", .fStr, false, .rNull⟩,
   ⟨"fields", .fStr, false, .rNull⟩]

def SeasonsInput.schema : List FieldSpec :=
  [⟨"season", .fStr, false, .rNull⟩, ⟨"all", .fBool, false, .rBool false⟩,
   ⟨"leagueId", .fInt, false, .rNull⟩, ⟨"divisionId", .fInt, false, .rNull⟩,
   ⟨"fields", .fStr, false, .rNull⟩]

def SeasonByIdInput.schema : List FieldSpec :=
  [⟨"seasonId", .fStr, true, .rNull⟩, ⟨"fields", .fStr, false, .rNull⟩]

def MLBStatsInput.schema : List FieldSpec :=
  [⟨"stats", .fStr, true, .rNull⟩, ⟨"group", .fStr, true, .rNull⟩,
   ⟨"playerPool", .fStr, false, .rNull⟩, ⟨"position", .fStr, false, .rNull⟩,
   ⟨"teamId", .fInt, false, .rNull⟩, ⟨"leagueId", .fInt, false, .rNull⟩,
   ⟨"sportIds", .fStr, false, .rStr "1"⟩, ⟨"gameType", .fStr, false, .rNull⟩,
   ⟨"season", .fStr, false, .rNull⟩, ⟨"sortStat", .fStr, false, .rNull⟩,
   ⟨"order", .fStr, false, .rNull⟩, ⟨"limit", .fInt, false, .rInt 50⟩,
   ⟨"offset", .fInt, false, .rInt 0⟩, ⟨"hydrate", .fStr, false, .rNull⟩,
   ⟨"fields", .fStr, false, .rNull⟩, ⟨"personId", .fStr, false, .rNull⟩,
   ⟨"metrics", .fStr, false, .rNull⟩, ⟨"startDate", .fStr, false, .rNull⟩,
   ⟨"endDate", .fStr, false, .rNull⟩]

def TeamHistoryInput.schema : List FieldSpec :=
  [⟨"teamIds", .fStr, true, .rNull⟩, ⟨"startSeason", .fStr, false, .rNull⟩,
   ⟨"endSeason", .fStr, false, .rNull⟩, ⟨"fields", .fStr, false, .rNull⟩]

def TeamStatsInput.schema : List FieldSpec :=
  [⟨"season", .fStr, true, .rNull⟩, ⟨"group", .fStr, true, .rNull⟩,
   ⟨"stats", .fStr, true, .rNull⟩, ⟨"gameType", .fStr, false, .rNull⟩,
   ⟨"order", .fStr, false, .rNull⟩, ⟨"sortStat", .fStr, false, .rNull⟩,
   ⟨"fields", .fStr, false, .rNull⟩, ⟨"startDate", .fStr, false, .rNull⟩,
   ⟨"endDate", .fStr, false, .rNull⟩]

def TeamAffiliatesInput.schema : List FieldSpec :=
  [⟨"teamIds", .fStr, true, .rNull⟩, ⟨"season", .fStr, false, .rNull⟩,
   ⟨"hydrate", .fStr, false, .rNull⟩, ⟨"fields", .fStr, false, .rNull⟩]

def TeamAlumniInput.schema : List FieldSpec :=
  [⟨"teamId", .fStr, true, .rNull⟩, ⟨"season", .fStr, true, .rNull⟩,
   ⟨"group", .fStr, true, .rNull⟩, ⟨"hydrate", .fStr, false, .rNull⟩,
   ⟨"fields", .fStr, false, .rNull⟩]

def TeamCoachesInput.schema : List FieldSpec :=
  [⟨"teamId", .fStr, true, .rNull⟩, ⟨"season", .fStr, false, .rNull⟩,
   ⟨"date", .fStr, false, .rNull⟩, ⟨"fields", .fStr, false, .rNull⟩]

def TeamLeadersInput.schema : List FieldSpec :=
  [⟨"teamId", .fStr, true, .rNull⟩, ⟨"leaderCategories", .fStr, true, .rNull⟩,
   ⟨"season", .fStr, true, .rNull⟩, ⟨"leaderGameTypes", .fStr, false, .rNull⟩,
   ⟨"hydrate", .fStr, false, .rNull⟩, ⟨"limit", .fInt, false, .rNull⟩,
   ⟨"fields", .fStr, false, .rNull⟩]

def TeamStatsByIdInput.schema : List FieldSpec :=
  [⟨"teamId", .fStr, true, .rNull⟩, ⟨"season", .fStr, true, .rNull⟩,
   ⟨"group", .fStr, true, .rNull⟩, ⟨"stats", .fStr, false, .rNull⟩,
   ⟨"gameType", .fStr, false, .rNull⟩, ⟨"sportIds", .fStr, false, .rStr "1"⟩,
   ⟨"sitCodes", .fStr, false, .rNull⟩, ⟨"fields", .fStr, false, .rNull⟩]

def TeamUniformsInput.schema : List FieldSpec :=
  [⟨"teamIds", .fStr, true, .rNull⟩, ⟨"season", .fStr, false, .rNull⟩,
   ⟨"fields", .fStr, false, .rNull⟩]

def TransactionsInput.schema : List FieldSpec :=
  [⟨"teamId", .fStr, false, .rNull⟩, ⟨"playerId", .fStr, false, .rNull⟩,
   ⟨"date", .fStr, false, .rNull⟩, ⟨"startDate", .fStr, false, .rNull⟩,
   ⟨"endDate", .fStr, false, .rNull⟩, ⟨"fields", .fStr, false, .rNull⟩]

/-- The registered tool names (one per `@mcp.tool` handler). -/
inductive Tool where
  | allTeams | teamRoster | playerStats | scheduleByDate | boxscore
  | standings | playerBio | teamSchedule | gameContent | leagueLeaders
  | awards | venues | attendance | awardWinners | divisions
  | draft | gameChanges | gameContextMetrics | gameLinescore | gameUniforms
  | gamePace | highlowPlayers | highlowTeams | allStarBallot | allStarWriteIns
  | allStarFinalVote | peopleFreeAgents | jobsUmpires | jobsDatacasters
  | jobsOfficialScorers | scheduleTiedGames | schedulePostseason
  | schedulePostseasonSeries | seasons | seasonById | stats
  | teamHistory | teamStats | teamAffiliates | teamAlumni | teamCoaches
  | teamPersonnel | teamLeaders | teamStatsById | teamUniforms | transactions
deriving DecidableEq, Repr

/-- The parameter model each handler declares (main.py handler signatures). -/
def schemaOf : Tool → List FieldSpec
  | .allTeams => TeamsForYearInput.schema
  | .teamRoster => TeamRosterInput.schema
  | .playerStats => PlayerStatsInput.schema
  | .scheduleByDate => ScheduleByDateInput.schema
  | .boxscore => BoxscoreInput.schema
  | .standings => StandingsInput.schema
  | .playerBio => PlayerBioInput.schema
  | .teamSchedule => TeamScheduleInput.schema
  | .gameContent => GameContentInput.schema
  | .leagueLeaders => LeagueLeadersInput.schema
  | .awards => AwardsInput.schema
  | .venues => VenuesInput.schema
  | .attendance => AttendanceInput.schema
  | .awardWinners => AwardWinnersInput.schema
  | .divisions => DivisionsInput.schema
  | .draft => DraftInput.schema
  | .gameChanges => GameChangesInput.schema
  | .gameContextMetrics => GameContextMetricsInput.schema
  | .gameLinescore => GameLinescoreInput.schema
  | .gameUniforms => GameUniformsInput.schema
  | .gamePace => GamePaceInput.schema
  | .highlowPlayers => HighLowPlayerInput.schema
  | .highlowTeams => HighLowPlayerInput.schema
  | .allStarBallot => AllStarBallotInput.schema
  | .allStarWriteIns => AllStarBallotInput.schema
  | .allStarFinalVote => AllStarBallotInput.schema
  | .peopleFreeAgents => PeopleFreeAgentsInput.schema
  | .jobsUmpires => JobsUmpiresInput.schema
  | .jobsDatacasters => JobsUmpiresInput.schema
  | .jobsOfficialScorers => JobsOfficialScorersInput.schema
  | .scheduleTiedGames => ScheduleTiedGamesInput.schema
  | .schedulePostseason => SchedulePostseasonInput.schema
  | .schedulePostseasonSeries => SchedulePostseasonInput.schema
  | .seasons => SeasonsInput.schema
  | .seasonById => SeasonByIdInput.schema
  | .stats => MLBStatsInput.schema
  | .teamHistory => TeamHistoryInput.schema
  | .teamStats => TeamStatsInput.schema
  | .teamAffiliates => TeamAffiliatesInput.schema
  | .teamAlumni => TeamAlumniInput.schema
  | .teamCoaches => TeamCoachesInput.schema
  | .teamPersonnel => TeamCoachesInput.schema
  | .teamLeaders => TeamLeadersInput.schema
  | .teamStatsById => TeamStatsByIdInput.schema
  | .teamUniforms => TeamUniformsInput.schema
  | .transactions => TransactionsInput.schema

/-- How many outbound requests one end-to-end dispatch of a raw payload to a
tool issues: the framework invokes the handler only when validation succeeds,
and every handler then issues exactly one request. -/
def requestCount (t : Tool) (p : Payload) : Nat :=
  match validate (schemaOf t) p with
  | .error _ => 0
  | .ok _ => 1

/-! ## Helper notions and lemmas about query mappings -/

/-- The keys of a query mapping, in order. -/
def qkeys (q : Query) : List String := q.map Prod.fst

/-- The key an optional field contributes to the query when present. -/
def optKey {β : Type} (k : String) (v : Option β) : List String :=
  match v with
  | none => []
  | some _ => [k]

@[simp] theorem qkeys_nil : qkeys [] = [] := rfl

@[simp] theorem qkeys_cons (e : String × QVal) (q : Query) :
    qkeys (e :: q) = e.1 :: qkeys q := rfl

@[simp] theorem qkeys_append (a b : Query) : qkeys (a ++ b) = qkeys a ++ qkeys b := by
  simp [qkeys]

@[simp] theorem qkeys_optInt (k : String) (v : Option Int) :
    qkeys (optInt k v) = optKey k v := by
  cases v <;> rfl

@[simp] theorem qkeys_optStr (k : String) (v : Option String) :
    qkeys (optStr k v) = optKey k v := by
  cases v <;> rfl

@[simp] theorem qkeys_optBool (k : String) (v : Option Bool) :
    qkeys (optBool k v) = optKey k v := by
  cases v <;> rfl

@[simp] theorem mem_optKey {β : Type} {j k : String} {v : Option β} :
    j ∈ optKey k v ↔ v.isSome = true ∧ j = k := by
  cases v <;> simp [optKey]

/-- Python dict assignment at a fresh key appends it at the end. -/
theorem setKey_eq_append {q : Query} {k : String} (v : QVal) (h : k ∉ qkeys q) :
    setKey q k v = q ++ [(k, v)] := by
  have ha : q.any (fun e => e.1 == k) = false := by
    rw [List.any_eq_false]
    intro e he
    simp only [beq_iff_eq]
    intro hk
    exact h (hk ▸ List.mem_map_of_mem Prod.fst he)
  simp [setKey, ha]

/-- Python dict assignment never changes the key set except by adding its own
key. -/
theorem mem_qkeys_setKey {q : Query} {k j : String} {v : QVal} :
    j ∈ qkeys (setKey q k v) ↔ j ∈ qkeys q ∨ j = k := by
  unfold setKey
  by_cases ha : q.any (fun e => e.1 == k) = true
  · have hk : k ∈ qkeys q := by
      rcases List.any_eq_true.mp ha with ⟨e, he, hek⟩
      exact (beq_iff_eq.mp hek) ▸ List.mem_map_of_mem Prod.fst he
    have hmap : qkeys (q.map (fun e => if e.1 == k then (k, v) else e)) = qkeys q := by
      unfold qkeys
      rw [List.map_map]
      apply List.map_congr_left
      intro e _
      by_cases hek : e.1 = k
      · simp [hek]
      · simp [hek]
    simp only [ha, if_true, hmap]
    constructor
    · exact Or.inl
    · rintro (h | rfl)
      · exact h
      · exact hk
  · simp only [Bool.not_eq_true] at ha
    simp [ha, qkeys]

/-! ## Which keys each outbound query carries

One lemma per tool whose model has optional fields, characterizing the key
list of the outbound query in terms of which optional fields are present.
Fields that are `none` (the value an omitted None-default field takes, or an
explicit null) contribute no key at all. -/

theorem attendance_query_keys (a : AttendanceInput) :
    qkeys (mlb_get_attendance a).query =
      optKey "season" a.season ++ optKey "teamId" a.teamId ++ optKey "date" a.date ++
        ["leagueListId"] := by
  have h : "leagueListId" ∉ qkeys a.dump := by simp [AttendanceInput.dump]
  show qkeys (setKey a.dump "leagueListId" (QVal.str "mlb")) = _
  rw [setKey_eq_append _ h]
  simp [AttendanceInput.dump]

theorem divisions_query_keys (d : DivisionsInput) :
    qkeys (mlb_get_divisions d).query = optKey "season" d.season ++ ["sportId"] := by
  have h : "sportId" ∉ qkeys d.dump := by simp [DivisionsInput.dump]
  show qkeys (setKey d.dump "sportId" (QVal.int 1)) = _
  rw [setKey_eq_append _ h]
  simp [DivisionsInput.dump]

theorem draft_query_keys (d : DraftInput) :
    qkeys (mlb_get_draft d).query =
      optKey "round" d.round ++ optKey "name" d.name ++ optKey "school" d.school ++
      optKey "state" d.state ++ optKey "country" d.country ++ optKey "position" d.position ++
      optKey "teamId" d.teamId ++ optKey "playerId" d.playerId ++
      optKey "bisPlayerId" d.bisPlayerId ++ optKey "latest" d.latest ++
      optKey "prospects" d.prospects := by
  simp [mlb_get_draft, DraftInput.dump]

theorem game_changes_query_keys (g : GameChangesInput) :
    qkeys (mlb_get_game_changes g).query =
      ["updatedSince"] ++ optKey "sportId" g.sportId ++ optKey "gameType" g.gameType ++
        optKey "season" g.season ++ optKey "fields" g.fields := by
  simp [mlb_get_game_changes, GameChangesInput.dump]

theorem game_context_metrics_query_keys (g : GameContextMetricsInput) :
    qkeys (mlb_get_game_context_metrics g).query = optKey "timecode" g.timecode := by
  simp [mlb_get_game_context_metrics]

theorem game_linescore_query_keys (g : GameLinescoreInput) :
    qkeys (mlb_get_game_linescore g).query = optKey "timecode" g.timecode := by
  simp [mlb_get_game_linescore]

theorem game_uniforms_query_keys (g : GameUniformsInput) :
    qkeys (mlb_get_game_uniforms g).query = ["gamePks"] ++ optKey "fields" g.fields := by
  simp [mlb_get_game_uniforms]

theorem game_pace_query_keys (g : GamePaceInput) :
    qkeys (mlb_get_game_pace g).query =
      ["season"] ++ optKey "teamIds" g.teamIds ++ optKey "leagueIds" g.leagueIds ++
      optKey "leagueListId" g.leagueListId ++ optKey "gameType" g.gameType ++
      optKey "startDate" g.startDate ++ optKey "endDate" g.endDate ++
      optKey "venueIds" g.venueIds ++ optKey "orgType" g.orgType ++
      optKey "includeChildren" g.includeChildren ++ optKey "fields" g.fields ++
      ["sportId"] := by
  have h : "sportId" ∉ qkeys g.dump := by simp [GamePaceInput.dump]
  show qkeys (setKey g.dump "sportId" (QVal.int 1)) = _
  rw [setKey_eq_append _ h]
  simp [GamePaceInput.dump]

theorem highlow_players_query_keys (p : HighLowPlayerInput) :
    "sportIds" ∈ qkeys (mlb_get_highlow_players p).query ∧
      ("gameType" ∈ qkeys (mlb_get_highlow_players p).query ↔ p.gameType.isSome = true) ∧
      ("leagueId" ∈ qkeys (mlb_get_highlow_players p).query ↔ p.leagueId.isSome = true) ∧
      ("teamId" ∈ qkeys (mlb_get_highlow_players p).query ↔ p.teamId.isSome = true) := by
  refine ⟨?_, ?_, ?_, ?_⟩ <;>
    simp [mlb_get_highlow_players, mem_qkeys_setKey, HighLowPlayerInput.dump]

theorem highlow_teams_query_keys (p : HighLowTeamInput) :
    "sportIds" ∈ qkeys (mlb_get_highlow_teams p).query ∧
      ("gameType" ∈ qkeys (mlb_get_highlow_teams p).query ↔ p.gameType.isSome = true) ∧
      ("leagueId" ∈ qkeys (mlb_get_highlow_teams p).query ↔ p.leagueId.isSome = true) ∧
      ("teamId" ∈ qkeys (mlb_get_highlow_teams p).query ↔ p.teamId.isSome = true) := by
  refine ⟨?_, ?_, ?_, ?_⟩ <;>
    simp [mlb_get_highlow_teams, mem_qkeys_setKey, HighLowPlayerInput.dump]

theorem people_free_agents_query_keys (p : PeopleFreeAgentsInput) :
    qkeys (mlb_get_people_free_agents p).query =
      ["leagueId"] ++ optKey "order" p.order ++ optKey "hydrate" p.hydrate ++
        optKey "fields" p.fields ++ ["season"] := by
  simp [mlb_get_people_free_agents, PeopleFreeAgentsInput.dump]

theorem jobs_umpires_query_keys (p : JobsUmpiresInput) :
    qkeys (mlb_get_jobs_umpires p).query =
      optKey "sportId" p.sportId ++ optKey "date" p.date ++ optKey "fields" p.fields := by
  simp [mlb_get_jobs_umpires, JobsUmpiresInput.dump]

theorem jobs_datacasters_query_keys (p : JobsDatacastersInput) :
    qkeys (mlb_get_jobs_datacasters p).query =
      optKey "sportId" p.sportId ++ optKey "date" p.date ++ optKey "fields" p.fields := by
  simp [mlb_get_jobs_datacasters, JobsUmpiresInput.dump]

theorem jobs_official_scorers_query_keys (p : JobsOfficialScorersInput) :
    qkeys (mlb_get_jobs_official_scorers p).query =
      optKey "timecode" p.timecode ++ optKey "fields" p.fields := by
  simp [mlb_get_jobs_official_scorers, JobsOfficialScorersInput.dump]

theorem schedule_tied_games_query_keys (p : ScheduleTiedGamesInput) :
    qkeys (mlb_get_schedule_tied_games p).query =
      ["season"] ++ optKey "gameTypes" p.gameTypes ++ optKey "hydrate" p.hydrate ++
        optKey "fields" p.fields := by
  simp [mlb_get_schedule_tied_games, ScheduleTiedGamesInput.dump]

theorem schedule_postseason_query_keys (p : SchedulePostseasonInput) :
    qkeys (mlb_get_schedule_postseason p).query =
      optKey "gameTypes" p.gameTypes ++ optKey "seriesNumber" p.seriesNumber ++
      optKey "teamId" p.teamId ++ optKey "sportId" p.sportId ++
      optKey "season" p.season ++ optKey "hydrate" p.hydrate ++
      optKey "fields" p.fields := by
  simp [mlb_get_schedule_postseason, SchedulePostseasonInput.dump]

theorem schedule_postseason_series_query_keys (p : SchedulePostseasonInput) :
    qkeys (mlb_get_schedule_postseason_series p).query =
      optKey "gameTypes" p.gameTypes ++ optKey "seriesNumber" p.seriesNumber ++
      optKey "teamId" p.teamId ++ optKey "sportId" p.sportId ++
      optKey "season" p.season ++ optKey "hydrate" p.hydrate ++
      optKey "fields" p.fields := by
  simp [mlb_get_schedule_postseason_series, SchedulePostseasonInput.dump]

theorem seasons_query_keys (s : SeasonsInput) :
    qkeys (mlb_get_seasons s).query =
      optKey "season" s.season ++ optKey "leagueId" s.leagueId ++
        optKey "divisionId" s.divisionId ++ optKey "fields" s.fields := by
  simp [mlb_get_seasons, SeasonsInput.dump]

theorem season_by_id_query_keys (s : SeasonByIdInput) :
    qkeys (mlb_get_season_by_id s).query = ["sportId"] := by
  simp [mlb_get_season_by_id, qkeys]

theorem stats_query_keys (p : MLBStatsInput) :
    qkeys (mlb_get_stats p).query =
      ["stats", "group"] ++ optKey "playerPool" p.playerPool ++
      optKey "position" p.position ++ optKey "teamId" p.teamId ++
      optKey "leagueId" p.leagueId ++ optKey "sportIds" p.sportIds ++
      optKey "gameType" p.gameType ++ optKey "season" p.season ++
      optKey "sortStat" p.sortStat ++ optKey "order" p.order ++
      optKey "limit" p.limit ++ optKey "offset" p.offset ++
      optKey "hydrate" p.hydrate ++ optKey "fields" p.fields ++
      optKey "personId" p.personId ++ optKey "metrics" p.metrics ++
      optKey "startDate" p.startDate ++ optKey "endDate" p.endDate := by
  simp [mlb_get_stats, MLBStatsInput.dump]

theorem team_history_query_keys (p : TeamHistoryInput) :
    qkeys (mlb_get_team_history p).query =
      ["teamIds"] ++ optKey "startSeason" p.startSeason ++
        optKey "endSeason" p.endSeason ++ optKey "fields" p.fields := by
  simp [mlb_get_team_history, TeamHistoryInput.dump]

theorem team_stats_query_keys (p : TeamStatsInput) :
    qkeys (mlb_get_team_stats p).query =
      ["season", "group", "stats"] ++ optKey "gameType" p.gameType ++
      optKey "order" p.order ++ optKey "sortStat" p.sortStat ++
      optKey "fields" p.fields ++ optKey "startDate" p.startDate ++
      optKey "endDate" p.endDate ++ ["sportIds"] := by
  have h : "sportIds" ∉ qkeys p.dump := by simp [TeamStatsInput.dump]
  show qkeys (setKey p.dump "sportIds" (QVal.int 1)) = _
  rw [setKey_eq_append _ h]
  simp [TeamStatsInput.dump]

theorem team_affiliates_query_keys (p : TeamAffiliatesInput) :
    qkeys (mlb_get_team_affiliates p).query =
      ["teamIds"] ++ optKey "season" p.season ++ optKey "hydrate" p.hydrate ++
        optKey "fields" p.fields ++ ["sportId"] := by
  have h : "sportId" ∉ qkeys p.dump := by simp [TeamAffiliatesInput.dump]
  show qkeys (setKey p.dump "sportId" (QVal.int 1)) = _
  rw [setKey_eq_append _ h]
  simp [TeamAffiliatesInput.dump]

theorem team_alumni_query_keys (p : TeamAlumniInput) :
    qkeys (mlb_get_team_alumni p).query =
      ["season", "group"] ++ optKey "hydrate" p.hydrate ++ optKey "fields" p.fields := by
  simp [mlb_get_team_alumni, TeamAlumniInput.dump]

theorem team_coaches_query_keys (p : TeamCoachesInput) :
    qkeys (mlb_get_team_coaches p).query =
      optKey "season" p.season ++ optKey "date" p.date ++ optKey "fields" p.fields := by
  simp [mlb_get_team_coaches, TeamCoachesInput.dump]

theorem team_personnel_query_keys (p : TeamPersonnelInput) :
    qkeys (mlb_get_team_personnel p).query =
      optKey "season" p.season ++ optKey "date" p.date ++ optKey "fields" p.fields := by
  simp [mlb_get_team_personnel, TeamCoachesInput.dump]

theorem team_leaders_query_keys (p : TeamLeadersInput) :
    qkeys (mlb_get_team_leaders p).query =
      ["leaderCategories", "season"] ++ optKey "leaderGameTypes" p.leaderGameTypes ++
        optKey "hydrate" p.hydrate ++ optKey "limit" p.limit ++ optKey "fields" p.fields := by
  simp [mlb_get_team_leaders, TeamLeadersInput.dump]

theorem team_stats_by_id_query_keys (p : TeamStatsByIdInput) :
    "sportIds" ∈ qkeys (mlb_get_team_stats_by_id p).query ∧
      ("stats" ∈ qkeys (mlb_get_team_stats_by_id p).query ↔ p.stats.isSome = true) ∧
      ("gameType" ∈ qkeys (mlb_get_team_stats_by_id p).query ↔ p.gameType.isSome = true) ∧
      ("sitCodes" ∈ qkeys (mlb_get_team_stats_by_id p).query ↔ p.sitCodes.isSome = true) ∧
      ("fields" ∈ qkeys (mlb_get_team_stats_by_id p).query ↔ p.fields.isSome = true) := by
  refine ⟨?_, ?_, ?_, ?_, ?_⟩ <;>
    simp [mlb_get_team_stats_by_id, mem_qkeys_setKey, TeamStatsByIdInput.dump]

theorem team_uniforms_query_keys (p : TeamUniformsInput) :
    qkeys (mlb_get_team_uniforms p).query =
      ["teamIds"] ++ optKey "season" p.season ++ optKey "fields" p.fields := by
  simp [mlb_get_team_uniforms, TeamUniformsInput.dump]

theorem transactions_query_keys (p : TransactionsInput) :
    qkeys (mlb_get_transactions p).query =
      optKey "teamId" p.teamId ++ optKey "playerId" p.playerId ++ optKey "date" p.date ++
        optKey "startDate" p.startDate ++ optKey "endDate" p.endDate ++
        optKey "fields" p.fields ++ ["sportId"] := by
  have h : "sportId" ∉ qkeys p.dump := by simp [TransactionsInput.dump]
  show qkeys (setKey p.dump "sportId" (QVal.int 1)) = _
  rw [setKey_eq_append _ h]
  simp [TransactionsInput.dump]

/-! ## Claim theorems -/

/-- C1: dispatching `mlb_get_all_teams` with payload year 2023 issues exactly
one outbound GET to `/teams` with query sportId=1, season=2023, and when the
upstream responds 200 with a JSON body, dispatch returns that parsed body
unchanged, with no reshaping. -/
theorem c1_all_teams_dispatch {α : Type} (net : Request → HttpResponse α) (b : α)
    (hnet : net (mlb_get_all_teams ⟨2023⟩) = ⟨200, b⟩) :
    dispatch (.allTeams ⟨2023⟩) net =
      ([{ method := .GET, url := MLB_BASE ++ "/teams",
          query := [("sportId", .int 1), ("season", .int 2023)],
          headers := HEADERS, body := none }], .ok b) := by
  unfold dispatch runTool
  simp only [requestOf]
  rw [hnet]
  simp [raise_for_status, is_success, mlb_get_all_teams, Except.map]

/-- C1 witness: a concrete stubbed 200 response. -/
theorem c1_all_teams_dispatch_witness :
    dispatch (.allTeams ⟨2023⟩) (fun _ => HttpResponse.mk 200 (42 : Nat)) =
      ([{ method := .GET, url := MLB_BASE ++ "/teams",
          query := [("sportId", .int 1), ("season", .int 2023)],
          headers := HEADERS, body := none }], .ok 42) :=
  c1_all_teams_dispatch (fun _ => HttpResponse.mk 200 (42 : Nat)) 42 rfl

/-- C2 counterexample: the claim says the stat group is "pitching" exactly
when position is the string "P" and "hitting" for any other value, but the
source compares `position.upper()`, so the distinct position value "p" also
resolves to "pitching". -/
theorem c2_player_stats_counterexample :
    ("p" : String) ≠ "P" ∧
      (mlb_get_player_stats ⟨"660271", 2023, "p"⟩).query =
        [("stats", .str "season"), ("group", .str "pitching"), ("season", .int 2023)] := by
  constructor
  · decide
  · simp [mlb_get_player_stats]
    decide

/-- C2 amended: the outbound GET goes to `/people/(player_id)/stats` with
query stats="season", group=g, season=year, where g is "pitching" exactly
when the uppercased position is "P" (so for both "P" and "p"), and "hitting"
for every other position value. -/
theorem c2_player_stats_request (pid : String) (yr : Int) (pos : String) :
    (mlb_get_player_stats ⟨pid, yr, pos⟩).url = MLB_BASE ++ ("/people/" ++ pid ++ "/stats") ∧
    ("stats", .str "season") ∈ (mlb_get_player_stats ⟨pid, yr, pos⟩).query ∧
    ("season", .int yr) ∈ (mlb_get_player_stats ⟨pid, yr, pos⟩).query ∧
    (("group", .str "pitching") ∈ (mlb_get_player_stats ⟨pid, yr, pos⟩).query ↔
      pyUpper pos = "P") ∧
    (("group", .str "hitting") ∈ (mlb_get_player_stats ⟨pid, yr, pos⟩).query ↔
      pyUpper pos ≠ "P") := by
  refine ⟨rfl, by simp [mlb_get_player_stats], by simp [mlb_get_player_stats], ?_, ?_⟩ <;>
    by_cases h : pyUpper pos = "P" <;>
      simp [mlb_get_player_stats, h]

/-- C3 counterexample: the claim says an omitted optional field is never
serialized, naming latest and prospects of `mlb_get_draft` and sportId of
`mlb_get_game_changes` in particular; but those fields have non-None
defaults (False, False, 1), so the all-omitted draft payload serializes
latest=false and prospects=false, and a game-changes payload leaving sportId
omitted serializes sportId=1. -/
theorem c3_omitted_optional_counterexample :
    "latest" ∈ qkeys (mlb_get_draft {}).query ∧
      "prospects" ∈ qkeys (mlb_get_draft {}).query ∧
      (mlb_get_draft {}).query = [("latest", .bool false), ("prospects", .bool false)] ∧
      "sportId" ∈ qkeys (mlb_get_game_changes { updatedSince := "2024-08-01T00:00:00Z" }).query := by
  refine ⟨by decide, by decide, rfl, by decide⟩

/-- C3 amended: for every tool, an optional field that is absent (in
particular one omitted with declared default None) contributes no key to the
outbound query string — never an empty or null value — as characterized by
the exact key list of every tool with optional fields; but optional fields
with non-None defaults are serialized with their defaults when omitted: the
all-omitted draft payload carries exactly latest=false and prospects=false,
and a game-changes payload with only updatedSince carries exactly
updatedSince and sportId=1. -/
theorem c3_omitted_optional_fields (a : AttendanceInput) (dv : DivisionsInput)
    (d : DraftInput) (g : GameChangesInput) (gcm : GameContextMetricsInput)
    (gl : GameLinescoreInput) (gu : GameUniformsInput) (gp : GamePaceInput)
    (hp : HighLowPlayerInput) (ht : HighLowTeamInput) (fa : PeopleFreeAgentsInput)
    (ju : JobsUmpiresInput) (jd : JobsDatacastersInput) (jos : JobsOfficialScorersInput)
    (tg : ScheduleTiedGamesInput) (ps : SchedulePostseasonInput)
    (pss : SchedulePostseasonInput) (se : SeasonsInput) (sb : SeasonByIdInput)
    (st : MLBStatsInput) (th : TeamHistoryInput) (ts : TeamStatsInput)
    (ta : TeamAffiliatesInput) (al : TeamAlumniInput) (tc : TeamCoachesInput)
    (tp : TeamPersonnelInput) (tl : TeamLeadersInput) (tsi : TeamStatsByIdInput)
    (tu : TeamUniformsInput) (tr : TransactionsInput) (u : String) :
    (qkeys (mlb_get_attendance a).query =
      optKey "season" a.season ++ optKey "teamId" a.teamId ++ optKey "date" a.date ++
        ["leagueListId"]) ∧
    (qkeys (mlb_get_divisions dv).query = optKey "season" dv.season ++ ["sportId"]) ∧
    (qkeys (mlb_get_draft d).query =
      optKey "round" d.round ++ optKey "name" d.name ++ optKey "school" d.school ++
      optKey "state" d.state ++ optKey "country" d.country ++ optKey "position" d.position ++
      optKey "teamId" d.teamId ++ optKey "playerId" d.playerId ++
      optKey "bisPlayerId" d.bisPlayerId ++ optKey "latest" d.latest ++
      optKey "prospects" d.prospects) ∧
    (qkeys (mlb_get_game_changes g).query =
      ["updatedSince"] ++ optKey "sportId" g.sportId ++ optKey "gameType" g.gameType ++
        optKey "season" g.season ++ optKey "fields" g.fields) ∧
    (qkeys (mlb_get_game_context_metrics gcm).query = optKey "timecode" gcm.timecode) ∧
    (qkeys (mlb_get_game_linescore gl).query = optKey "timecode" gl.timecode) ∧
    (qkeys (mlb_get_game_uniforms gu).query = ["gamePks"] ++ optKey "fields" gu.fields) ∧
    (qkeys (mlb_get_game_pace gp).query =
      ["season"] ++ optKey "teamIds" gp.teamIds ++ optKey "leagueIds" gp.leagueIds ++
      optKey "leagueListId" gp.leagueListId ++ optKey "gameType" gp.gameType ++
      optKey "startDate" gp.startDate ++ optKey "endDate" gp.endDate ++
      optKey "venueIds" gp.venueIds ++ optKey "orgType" gp.orgType ++
      optKey "includeChildren" gp.includeChildren ++ optKey "fields" gp.fields ++
      ["sportId"]) ∧
    (("gameType" ∈ qkeys (mlb_get_highlow_players hp).query ↔ hp.gameType.isSome = true) ∧
     ("leagueId" ∈ qkeys (mlb_get_highlow_players hp).query ↔ hp.leagueId.isSome = true) ∧
     ("teamId" ∈ qkeys (mlb_get_highlow_players hp).query ↔ hp.teamId.isSome = true)) ∧
    (("gameType" ∈ qkeys (mlb_get_highlow_teams ht).query ↔ ht.gameType.isSome = true) ∧
     ("leagueId" ∈ qkeys (mlb_get_highlow_teams ht).query ↔ ht.leagueId.isSome = true) ∧
     ("teamId" ∈ qkeys (mlb_get_highlow_teams ht).query ↔ ht.teamId.isSome = true)) ∧
    (qkeys (mlb_get_people_free_agents fa).query =
      ["leagueId"] ++ optKey "order" fa.order ++ optKey "hydrate" fa.hydrate ++
        optKey "fields" fa.fields ++ ["season"]) ∧
    (qkeys (mlb_get_jobs_umpires ju).query =
      optKey "sportId" ju.sportId ++ optKey "date" ju.date ++ optKey "fields" ju.fields) ∧
    (qkeys (mlb_get_jobs_datacasters jd).query =
      optKey "sportId" jd.sportId ++ optKey "date" jd.date ++ optKey "fields" jd.fields) ∧
    (qkeys (mlb_get_jobs_official_scorers jos).query =
      optKey "timecode" jos.timecode ++ optKey "fields" jos.fields) ∧
    (qkeys (mlb_get_schedule_tied_games tg).query =
      ["season"] ++ optKey "gameTypes" tg.gameTypes ++ optKey "hydrate" tg.hydrate ++
        optKey "fields" tg.fields) ∧
    (qkeys (mlb_get_schedule_postseason ps).query =
      optKey "gameTypes" ps.gameTypes ++ optKey "seriesNumber" ps.seriesNumber ++
      optKey "teamId" ps.teamId ++ optKey "sportId" ps.sportId ++
      optKey "season" ps.season ++ optKey "hydrate" ps.hydrate ++
      optKey "fields" ps.fields) ∧
    (qkeys (mlb_get_schedule_postseason_series pss).query =
      optKey "gameTypes" pss.gameTypes ++ optKey "seriesNumber" pss.seriesNumber ++
      optKey "teamId" pss.teamId ++ optKey "sportId" pss.sportId ++
      optKey "season" pss.season ++ optKey "hydrate" pss.hydrate ++
      optKey "fields" pss.fields) ∧
    (qkeys (mlb_get_seasons se).query =
      optKey "season" se.season ++ optKey "leagueId" se.leagueId ++
        optKey "divisionId" se.divisionId ++ optKey "fields" se.fields) ∧
    (qkeys (mlb_get_season_by_id sb).query = ["sportId"]) ∧
    (qkeys (mlb_get_stats st).query =
      ["stats", "group"] ++ optKey "playerPool" st.playerPool ++
      optKey "position" st.position ++ optKey "teamId" st.teamId ++
      optKey "leagueId" st.leagueId ++ optKey "sportIds" st.sportIds ++
      optKey "gameType" st.gameType ++ optKey "season" st.season ++
      optKey "sortStat" st.sortStat ++ optKey "order" st.order ++
      optKey "limit" st.limit ++ optKey "offset" st.offset ++
      optKey "hydrate" st.hydrate ++ optKey "fields" st.fields ++
      optKey "personId" st.personId ++ optKey "metrics" st.metrics ++
      optKey "startDate" st.startDate ++ optKey "endDate" st.endDate) ∧
    (qkeys (mlb_get_team_history th).query =
      ["teamIds"] ++ optKey "startSeason" th.startSeason ++
        optKey "endSeason" th.endSeason ++ optKey "fields" th.fields) ∧
    (qkeys (mlb_get_team_stats ts).query =
      ["season", "group", "stats"] ++ optKey "gameType" ts.gameType ++
      optKey "order" ts.order ++ optKey "sortStat" ts.sortStat ++
      optKey "fields" ts.fields ++ optKey "startDate" ts.startDate ++
      optKey "endDate" ts.endDate ++ ["sportIds"]) ∧
    (qkeys (mlb_get_team_affiliates ta).query =
      ["teamIds"] ++ optKey "season" ta.season ++ optKey "hydrate" ta.hydrate ++
        optKey "fields" ta.fields ++ ["sportId"]) ∧
    (qkeys (mlb_get_team_alumni al).query =
      ["season", "group"] ++ optKey "hydrate" al.hydrate ++ optKey "fields" al.fields) ∧
    (qkeys (mlb_get_team_coaches tc).query =
      optKey "season" tc.season ++ optKey "date" tc.date ++ optKey "fields" tc.fields) ∧
    (qkeys (mlb_get_team_personnel tp).query =
      optKey "season" tp.season ++ optKey "date" tp.date ++ optKey "fields" tp.fields) ∧
    (qkeys (mlb_get_team_leaders tl).query =
      ["leaderCategories", "season"] ++ optKey "leaderGameTypes" tl.leaderGameTypes ++
        optKey "hydrate" tl.hydrate ++ optKey "limit" tl.limit ++ optKey "fields" tl.fields) ∧
    (("stats" ∈ qkeys (mlb_get_team_stats_by_id tsi).query ↔ tsi.stats.isSome = true) ∧
     ("gameType" ∈ qkeys (mlb_get_team_stats_by_id tsi).query ↔ tsi.gameType.isSome = true) ∧
     ("sitCodes" ∈ qkeys (mlb_get_team_stats_by_id tsi).query ↔ tsi.sitCodes.isSome = true) ∧
     ("fields" ∈ qkeys (mlb_get_team_stats_by_id tsi).query ↔ tsi.fields.isSome = true)) ∧
    (qkeys (mlb_get_team_uniforms tu).query =
      ["teamIds"] ++ optKey "season" tu.season ++ optKey "fields" tu.fields) ∧
    (qkeys (mlb_get_transactions tr).query =
      optKey "teamId" tr.teamId ++ optKey "playerId" tr.playerId ++ optKey "date" tr.date ++
        optKey "startDate" tr.startDate ++ optKey "endDate" tr.endDate ++
        optKey "fields" tr.fields ++ ["sportId"]) ∧
    (mlb_get_draft {}).query = [("latest", .bool false), ("prospects", .bool false)] ∧
    (mlb_get_game_changes { updatedSince := u }).query =
      [("updatedSince", .str u), ("sportId", .int 1)] :=
  ⟨attendance_query_keys a, divisions_query_keys dv, draft_query_keys d,
   game_changes_query_keys g, game_context_metrics_query_keys gcm,
   game_linescore_query_keys gl, game_uniforms_query_keys gu,
   game_pace_query_keys gp, (highlow_players_query_keys hp).2,
   (highlow_teams_query_keys ht).2, people_free_agents_query_keys fa,
   jobs_umpires_query_keys ju, jobs_datacasters_query_keys jd,
   jobs_official_scorers_query_keys jos, schedule_tied_games_query_keys tg,
   schedule_postseason_query_keys ps, schedule_postseason_series_query_keys pss,
   seasons_query_keys se, season_by_id_query_keys sb, stats_query_keys st,
   team_history_query_keys th, team_stats_query_keys ts,
   team_affiliates_query_keys ta, team_alumni_query_keys al,
   team_coaches_query_keys tc, team_personnel_query_keys tp,
   team_leaders_query_keys tl, (team_stats_by_id_query_keys tsi).2,
   team_uniforms_query_keys tu, transactions_query_keys tr, rfl, rfl⟩

/-- C5: any upstream status outside the 2xx range makes the dispatch fail
with an error carrying that status and the response body, rather than
returning a value. -/
theorem c5_non_success_fails {α : Type} (r : Request) (net : Request → HttpResponse α)
    (status : Nat) (b : α) (hnet : net r = ⟨status, b⟩)
    (hs : ¬(200 ≤ status ∧ status < 300)) :
    (runTool r net).2 = .error ⟨status, b⟩ := by
  have hb : is_success status = false := by
    simp only [is_success, Bool.and_eq_false_iff, decide_eq_false_iff_not]
    omega
  simp [runTool, hnet, raise_for_status, hb, Except.map]

/-- C5 witness: a stubbed 404 with an error body makes the dispatch of
`mlb_get_all_teams` fail with status 404, the body retrievable from the
error. -/
theorem c5_non_success_fails_witness :
    (runTool (mlb_get_all_teams ⟨2023⟩)
        (fun _ => HttpResponse.mk 404 "error-body")).2 =
      .error ⟨404, "error-body"⟩ :=
  c5_non_success_fails (mlb_get_all_teams ⟨2023⟩)
    (fun _ => HttpResponse.mk 404 "error-body") 404 "error-body" rfl (by omega)

/-- C6: `mlb_get_seasons` goes to `/seasons/all` when all is true and to
`/seasons` when all is absent or false, and the all field itself is never in
the outbound query string. -/
theorem c6_seasons_path (s : SeasonsInput) :
    "all" ∉ qkeys (mlb_get_seasons s).query ∧
      ((s.all = some true ∧ (mlb_get_seasons s).url = MLB_BASE ++ "/seasons/all") ∨
       ((s.all = none ∨ s.all = some false) ∧
         (mlb_get_seasons s).url = MLB_BASE ++ "/seasons")) := by
  constructor
  · simp [mlb_get_seasons, SeasonsInput.dump]
  · rcases hall : s.all with _ | b
    · exact Or.inr ⟨Or.inl rfl, by simp [mlb_get_seasons, pyTruthy, hall]⟩
    · cases b
      · exact Or.inr ⟨Or.inr rfl, by simp [mlb_get_seasons, pyTruthy, hall]⟩
      · exact Or.inl ⟨rfl, by simp [mlb_get_seasons, pyTruthy, hall]⟩

/-- C7: for every tool and every validated payload, the dispatch issues
exactly one outbound request, a GET against a sub-path of the fixed base URL,
with no request body (and no retry: the request list is that single
request). -/
theorem c7_single_get_per_dispatch {α : Type} (c : ToolCall) (net : Request → HttpResponse α) :
    (dispatch c net).1 = [requestOf c] ∧
      (requestOf c).method = .GET ∧
      (requestOf c).body = none ∧
      ∃ sub, (requestOf c).url = MLB_BASE ++ sub := by
  refine ⟨rfl, ?_⟩
  cases c <;> exact ⟨rfl, rfl, _, rfl⟩

/-- Generic validation lemma: a required field absent from the payload makes
`validate` fail, and the error names that field among the missing ones. -/
theorem validate_missing_required {fs : List FieldSpec} {p : Payload} {f : FieldSpec}
    (hf : f ∈ fs) (hreq : f.required = true) (habs : lookupRaw p f.name = none) :
    ∃ e, validate fs p = .error e ∧ f.name ∈ e.missing := by
  have hmem : f.name ∈ missingOf fs p := by
    unfold missingOf
    exact List.mem_map_of_mem _ (List.mem_filter.mpr ⟨hf, by simp [hreq, habs]⟩)
  have hne : (missingOf fs p).isEmpty = false := by
    rcases h : (missingOf fs p).isEmpty with _ | _
    · rfl
    · rw [List.isEmpty_iff.mp h] at hmem
      exact absurd hmem (List.not_mem_nil _)
  refine ⟨⟨missingOf fs p, invalidOf fs p⟩, ?_, hmem⟩
  unfold validate
  simp [hne]

/-- C4: for every tool, a payload omitting a required field of the schema of the tool fails validation with an error naming that field as missing, and the
dispatch issues no outbound request. -/
theorem c4_missing_required_field (t : Tool) (p : Payload) (f : FieldSpec)
    (hf : f ∈ schemaOf t) (hreq : f.required = true) (habs : lookupRaw p f.name = none) :
    (∃ e, validate (schemaOf t) p = .error e ∧ f.name ∈ e.missing) ∧
      requestCount t p = 0 := by
  obtain ⟨e, he, hm⟩ := validate_missing_required hf hreq habs
  exact ⟨⟨e, he, hm⟩, by unfold requestCount; rw [he]⟩

/-- C4 witness: the empty payload for `mlb_get_all_teams` is missing its
required year field, validation reports it, and no request is issued. -/
theorem c4_missing_required_field_witness :
    (∃ e, validate (schemaOf Tool.allTeams) [] = .error e ∧ "year" ∈ e.missing) ∧
      requestCount Tool.allTeams [] = 0 :=
  c4_missing_required_field Tool.allTeams [] ⟨"year", .fInt, true, .rNull⟩
    (by simp [schemaOf, TeamsForYearInput.schema]) rfl rfl

/-- C8: every outbound request of every tool carries the same fixed header
set: Accept and Content-Type, both application/json. -/
theorem c8_fixed_headers (c : ToolCall) :
    (requestOf c).headers =
      [("Accept", "application/json"), ("Content-Type", "application/json")] := by
  cases c <;> rfl

/-- C9: the outbound request of `mlb_get_boxscore` depends only on game_pk:
two valid payloads agreeing on game_pk but differing in year, team_id or
game_date produce identical requests. -/
theorem c9_boxscore_depends_only_on_game_pk (p1 p2 : BoxscoreInput)
    (h : p1.game_pk = p2.game_pk) :
    mlb_get_boxscore p1 = mlb_get_boxscore p2 := by
  rcases p1 with ⟨g1, y1, t1, d1⟩
  rcases p2 with ⟨g2, y2, t2, d2⟩
  simp only at h
  simp [mlb_get_boxscore, h]

/-- C9 witness: two payloads with the same game_pk and different year,
team_id and game_date give the same request. -/
theorem c9_boxscore_witness :
    mlb_get_boxscore ⟨717715, 2023, "147", "2023-07-14"⟩ =
      mlb_get_boxscore ⟨717715, 2022, "121", "2022-05-05"⟩ :=
  c9_boxscore_depends_only_on_game_pk
    ⟨717715, 2023, "147", "2023-07-14"⟩ ⟨717715, 2022, "121", "2022-05-05"⟩ rfl

/-- C10: when the optional year of `mlb_get_draft` is omitted (its default is
no value), the outbound path interpolates the Python rendering str(None) and the GET
goes to the literal `/draft/None`. -/
theorem c10_draft_year_none_path (d : DraftInput) (h : d.year = none) :
    (mlb_get_draft d).url = MLB_BASE ++ "/draft/None" := by
  simp [mlb_get_draft, pyStrOptInt, h]

/-- C10 witness: the all-defaults payload. -/
theorem c10_draft_year_none_path_witness :
    (mlb_get_draft {}).url = MLB_BASE ++ "/draft/None" :=
  c10_draft_year_none_path {} rfl

end MLBMCP
